import Mathlib

/-!
Verification development for the jaundice-rate repository (`main.py`,
`server.py`): a shallow embedding of the per-article processing pipeline
(`process_article`), its fan-out/collect orchestration (`main` / `handle`),
the charged-word loader and the HTTP handler, together with theorems about
the claims of the specification.

External capabilities that the sources import but that are not part of the
repository snapshot (`fetch`'s network behaviour, `sanitize`,
`split_by_words`, `calculate_jaundice_rate`) are supplied as explicit
parameters of the embedding, or modelled from the spec where the spec is the
only description available.
-/

namespace Jaundice

/-- The ProcessingStatus enum from `main.py`: the closed taxonomy of
pipeline outcomes. -/
inductive ProcessingStatus where
  | OK
  | FETCH_ERROR
  | PARSING_ERROR
  | TIMEOUT
deriving DecidableEq

/-- The ArticleResult dataclass from `main.py`: `url`, `status`, and the
optional `words_count` and `score` fields, both defaulting to `None`.
Python's `float` score is embedded as `ℚ`. -/
structure ArticleResult where
  url : String
  status : ProcessingStatus
  words_count : Option ℕ := none
  score : Option ℚ := none
deriving DecidableEq

instance : Inhabited ArticleResult := ⟨⟨"", .FETCH_ERROR, none, none⟩⟩

/-- The constant `RESPONSE_TIMEOUT = 1` (seconds) from `main.py`: deadline of
the fetch stage. -/
def RESPONSE_TIMEOUT : ℚ := 1

/-- The constant `MORPH_TIMEOUT = 3` (seconds) from `main.py`: deadline of the
tokenize/normalize stage. -/
def MORPH_TIMEOUT : ℚ := 3

/-- What `fetch(session, url)` from `main.py` would deliver for a given url,
absent any deadline: either the page text, or an `aiohttp.ClientError`
(connection refused, or the `ClientResponseError` that
`response.raise_for_status()` raises on a non-2xx status). -/
inductive FetchOutcome where
  | success (html : String)
  | clientError

/-- What `sanitize(html, plaintext=True)` from `adapters.inosmi_ru` reports
for a given page: the extracted plaintext, or the `ArticleNotFound` raised
when the page is not a recognizable article. -/
inductive SanitizeOutcome where
  | plaintext (text : String)
  | articleNotFound

/-- The environment of one pipeline run for one url: the behaviour of the
external capabilities (`fetch`, `sanitize`, `split_by_words`) and how long
each stage takes. `fetchTime` and `morphTime` are the durations of the two
stages wrapped in `async with timeout(...)`; `sanitizeTime` is the duration
of the `sanitize` call, which the code does not wrap in any timeout. -/
structure PipelineEnv where
  fetchOutcome : FetchOutcome
  fetchTime : ℚ
  sanitize : String → SanitizeOutcome
  sanitizeTime : ℚ
  splitByWords : String → List String
  morphTime : ℚ

instance : Inhabited PipelineEnv :=
  ⟨⟨.clientError, 0, fun _ => .articleNotFound, 0, fun _ => [], 0⟩⟩

/-- Modelled from the spec: `calculate_jaundice_rate` lives in
`text_tools.py`, which is not among the source files. The spec describes it
as a pure function computing
`score = countOf(token ∈ charged_words) / totalTokenCount`, with score 0.0
by convention when `totalTokenCount = 0`. -/
def calculate_jaundice_rate (words : List String)
    (charged_words : List String) : ℚ :=
  if words.length = 0 then 0
  else (words.countP (fun w => charged_words.contains w) : ℚ) / (words.length : ℚ)

/-- `process_article` from `main.py`, as the single classified
`ArticleResult` it appends to the shared results list before returning.
A timed stage whose duration exceeds its deadline raises
`asyncio.TimeoutError`, which the surrounding `except` arm converts to a
`TIMEOUT` result; a `ClientError` within the deadline becomes `FETCH_ERROR`;
`ArticleNotFound` from the untimed `sanitize` call becomes `PARSING_ERROR`;
otherwise `split_by_words` runs under `MORPH_TIMEOUT` and an `OK` result
carries `len(words)` and the `calculate_jaundice_rate` score. -/
def process_article (charged_words : List String) (url : String)
    (env : PipelineEnv) : ArticleResult :=
  if RESPONSE_TIMEOUT < env.fetchTime then
    { url := url, status := .TIMEOUT }
  else
    match env.fetchOutcome with
    | .clientError => { url := url, status := .FETCH_ERROR }
    | .success html =>
      match env.sanitize html with
      | .articleNotFound => { url := url, status := .PARSING_ERROR }
      | .plaintext text =>
        if MORPH_TIMEOUT < env.morphTime then
          { url := url, status := .TIMEOUT }
        else
          let words := env.splitByWords text
          { url := url, status := .OK, words_count := some words.length,
            score := some (calculate_jaundice_rate words charged_words) }

/-- The fan-out/collect orchestration shared by `main` in `main.py` and
`handle` in `server.py`: one `process_article` task per url is started with
`tg.start_soon` in a task group over the shared `results` list, and each
task appends its single result when it finishes. `order` records the order
in which the concurrent tasks reach their append (the completion order); a
completed batch corresponds to `order` being a permutation of the indices
`0 .. urls.length - 1`. -/
def run_batch (charged_words : List String) (urls : List String)
    (envs : List PipelineEnv) (order : List ℕ) : List ArticleResult :=
  order.foldl
    (fun results i =>
      results ++ [process_article charged_words (urls.getD i "") (envs.getD i default)])
    []

/-- `load_charged_words` from `main.py`, with each file represented by the
list of its lines (the `f.read().splitlines()` of the file at that path):
starts from an empty list and extends it with every file's lines, in
order. -/
def load_charged_words (filelines : List (List String)) : List String :=
  filelines.foldl (fun acc ls => acc ++ ls) []

/-- The constant `MAX_URLS = 5` from `server.py`. -/
def MAX_URLS : ℕ := 5

/-- Python's `str.split(sep)` for a one-character separator, on the
character list of the string: `"".split(",") == [""]`, and every occurrence
of the separator starts a new part. -/
def splitOnChar (sep : Char) : List Char → List (List Char)
  | [] => [[]]
  | c :: rest =>
    let r := splitOnChar sep rest
    if c = sep then [] :: r
    else
      match r with
      | [] => [[c]]
      | p :: ps => (c :: p) :: ps

/-- Python's `param.split(",")` from `server.py`, via `splitOnChar`. -/
def pySplit (s : String) (sep : Char) : List String :=
  (splitOnChar sep s.data).map String.mk

/-- The observable outcome of one call to `handle` in `server.py`:
`keyError` is the uncaught `KeyError` from `request.rel_url.query["urls"]`
when the parameter is missing (it escapes the handler as a server error);
`badRequest` is the `web.HTTPBadRequest` raised with its message text;
`jsonOk` is the list serialized by the 200 `web.json_response`. -/
inductive HandleResponse where
  | keyError
  | badRequest (text : String)
  | jsonOk (results : List ArticleResult)
deriving DecidableEq

/-- The response of a `handle` call paired with the number of
`tg.start_soon(process_article, ...)` calls it made. -/
structure HandleOutcome where
  response : HandleResponse
  pipelinesSpawned : ℕ
deriving DecidableEq

/-- `handle` from `server.py`: read the `urls` query parameter (a missing
parameter raises `KeyError`), split it on commas, reject with
`HTTPBadRequest` when more than `MAX_URLS` urls are given (before spawning
anything), and otherwise spawn one pipeline per url in a task group and
answer with the collected results as JSON. `envs` supplies each url's
pipeline environment and `order` the completion order of the spawned
tasks. -/
def handle (charged_words : List String) (envs : String → PipelineEnv)
    (queryUrls : Option String) (order : List ℕ) : HandleOutcome :=
  match queryUrls with
  | none => ⟨.keyError, 0⟩
  | some param =>
    let urls := pySplit param ','
    if urls.length > MAX_URLS then
      ⟨.badRequest ("too many urls in request, should be " ++ toString MAX_URLS ++ " or less"), 0⟩
    else
      ⟨.jsonOk (run_batch charged_words urls (urls.map envs) order), urls.length⟩

end Jaundice

namespace Jaundice

/-- Auxiliary: a left fold that appends one element per step builds the map. -/
theorem foldl_append_singleton {α β : Type} (f : α → β) :
    ∀ (l : List α) (init : List β),
      l.foldl (fun acc i => acc ++ [f i]) init = init ++ l.map f := by
  intro l
  induction l with
  | nil => intro init; simp
  | cons a t ih => intro init; simp [ih]

/-- `run_batch` produces, along the completion order, the classified result of
each completed pipeline. -/
theorem run_batch_eq_map (charged_words : List String) (urls : List String)
    (envs : List PipelineEnv) (order : List ℕ) :
    run_batch charged_words urls envs order =
      order.map (fun i =>
        process_article charged_words (urls.getD i "") (envs.getD i default)) := by
  unfold run_batch
  rw [foldl_append_singleton]
  simp

/-- Every branch of `process_article` copies the input url into the result. -/
theorem process_article_url (charged_words : List String) (url : String)
    (env : PipelineEnv) : (process_article charged_words url env).url = url := by
  unfold process_article
  repeat' split
  all_goals rfl

/-- Auxiliary: mapping positional lookup over the index range rebuilds the list. -/
theorem map_getD_range {α : Type} (d : α) :
    ∀ (l : List α), (List.range l.length).map (fun i => l.getD i d) = l := by
  intro l
  induction l with
  | nil => simp
  | cons a t ih =>
    rw [List.length_cons, List.range_succ_eq_map, List.map_cons, List.map_map]
    have hc : ((fun i => (a :: t).getD i d) ∘ Nat.succ) = fun i => t.getD i d := by
      funext i
      simp [List.getD_cons_succ]
    rw [hc, ih, List.getD_cons_zero]

end Jaundice
namespace Jaundice

/-- C1 counterexample: with two urls and the valid completion order in which
the second pipeline finishes first, the result at output position 0 carries
the url at input position 1, so output position `i` does not correspond to
input position `i`. -/
theorem c1_counterexample :
    [1, 0].Perm (List.range (["a", "b"] : List String).length) ∧
    (run_batch [] ["a", "b"] [default, default] [1, 0]).length = 2 ∧
    ((run_batch [] ["a", "b"] [default, default] [1, 0]).getD 0 default).url = "b" ∧
    ((run_batch [] ["a", "b"] [default, default] [1, 0]).getD 0 default).url ≠
      (["a", "b"] : List String).getD 0 "" := by
  refine ⟨by decide, ?_, ?_, ?_⟩ <;> decide

/-- C1 amended: for every completion order that is a permutation of the
input indices, the orchestrator returns exactly N results — one per input
url, the result urls being a permutation of the input urls — but in
completion order, not input order. -/
theorem c1_batch_results (charged_words : List String) (urls : List String)
    (envs : List PipelineEnv) (order : List ℕ)
    (horder : order.Perm (List.range urls.length)) :
    (run_batch charged_words urls envs order).length = urls.length ∧
    ((run_batch charged_words urls envs order).map ArticleResult.url).Perm urls := by
  constructor
  · rw [run_batch_eq_map, List.length_map, horder.length_eq, List.length_range]
  · rw [run_batch_eq_map, List.map_map]
    have hcomp : (ArticleResult.url ∘ fun i =>
        process_article charged_words (urls.getD i "") (envs.getD i default)) =
        fun i => urls.getD i "" := by
      funext i
      exact process_article_url charged_words (urls.getD i "") (envs.getD i default)
    rw [hcomp]
    have hmap := horder.map (fun i => urls.getD i "")
    rw [map_getD_range] at hmap
    exact hmap

/-- C1 witness: the amended theorem applied to a concrete two-url batch
completing in reverse order. -/
theorem c1_batch_results_witness :
    (run_batch [] ["a", "b"] [default, default] [1, 0]).length =
      (["a", "b"] : List String).length ∧
    ((run_batch [] ["a", "b"] [default, default] [1, 0]).map ArticleResult.url).Perm
      ["a", "b"] :=
  c1_batch_results [] ["a", "b"] [default, default] [1, 0] (by decide)

end Jaundice
namespace Jaundice

/-- C2: in every result of `process_article`, `words_count` and `score` are
both present or both absent; both are `none` whenever the status is not
`OK`; and on `OK` they carry the token count and score of the article's
normalized token list. -/
theorem c2_fields_present_iff_ok (charged_words : List String) (url : String)
    (env : PipelineEnv) :
    ((process_article charged_words url env).words_count.isSome ↔
      (process_article charged_words url env).score.isSome) ∧
    ((process_article charged_words url env).status ≠ .OK →
      (process_article charged_words url env).words_count = none ∧
      (process_article charged_words url env).score = none) ∧
    ((process_article charged_words url env).status = .OK →
      ∃ html text, env.fetchOutcome = .success html ∧
        env.sanitize html = .plaintext text ∧
        (process_article charged_words url env).words_count =
          some (env.splitByWords text).length ∧
        (process_article charged_words url env).score =
          some (calculate_jaundice_rate (env.splitByWords text) charged_words)) := by
  obtain ⟨fo, ft, sa, st, sw, mt⟩ := env
  unfold process_article
  split
  · simp
  · cases fo with
    | clientError => simp
    | success html =>
      cases hso : sa html with
      | articleNotFound => simp [hso]
      | plaintext text =>
        simp only [hso]
        split
        · simp
        · refine ⟨by simp, by simp, fun _ => ⟨html, text, rfl, hso, rfl, rfl⟩⟩

/-- C2 witness: the theorem applied to a concrete failing environment, whose
result has a non-OK status and both fields absent. -/
theorem c2_fields_present_iff_ok_witness :
    (process_article [] "u" default).status ≠ .OK ∧
    (process_article [] "u" default).words_count = none ∧
    (process_article [] "u" default).score = none :=
  ⟨by decide, (c2_fields_present_iff_ok [] "u" default).2.1 (by decide)⟩

/-- C4: if the fetch stage exceeds `RESPONSE_TIMEOUT`, or the article
reaches the tokenize/normalize stage and that stage exceeds
`MORPH_TIMEOUT`, the result is the single `TIMEOUT` status — the same value
in both cases, with no cause recorded — and `words_count` and `score` are
absent. -/
theorem c4_timeout_status (charged_words : List String) (url : String)
    (env : PipelineEnv)
    (h : RESPONSE_TIMEOUT < env.fetchTime ∨
      ∃ html text, env.fetchOutcome = .success html ∧
        env.sanitize html = .plaintext text ∧ MORPH_TIMEOUT < env.morphTime) :
    process_article charged_words url env =
      { url := url, status := .TIMEOUT, words_count := none, score := none } := by
  unfold process_article
  rcases h with h | ⟨html, text, hf, hs, hm⟩
  · rw [if_pos h]
  · split
    · rfl
    · simp only [hf, hs]

/-- C4 witness: a fetch that takes 2 seconds against the 1-second deadline
yields the `TIMEOUT` result. -/
theorem c4_timeout_status_witness :
    process_article [] "u"
      { fetchOutcome := .clientError, fetchTime := 2,
        sanitize := fun _ => .articleNotFound, sanitizeTime := 0,
        splitByWords := fun _ => [], morphTime := 0 } =
      { url := "u", status := .TIMEOUT, words_count := none, score := none } :=
  c4_timeout_status [] "u" _ (Or.inl (by decide))

/-- C5: a fetch that fails with `aiohttp.ClientError` (connection refused or
non-2xx status) within the fetch deadline yields `FETCH_ERROR`, with
`words_count` and `score` absent. -/
theorem c5_fetch_error_status (charged_words : List String) (url : String)
    (env : PipelineEnv)
    (hf : env.fetchOutcome = .clientError)
    (ht : env.fetchTime ≤ RESPONSE_TIMEOUT) :
    process_article charged_words url env =
      { url := url, status := .FETCH_ERROR, words_count := none, score := none } := by
  unfold process_article
  rw [if_neg (not_lt.mpr ht)]
  simp only [hf]

/-- C5 witness: the default environment fails its fetch instantly with a
client error and is classified `FETCH_ERROR`. -/
theorem c5_fetch_error_status_witness :
    process_article [] "u" default =
      { url := "u", status := .FETCH_ERROR, words_count := none, score := none } :=
  c5_fetch_error_status [] "u" default rfl (by decide)

/-- C6: a page fetched within the deadline whose content the sanitizer
reports as not an article yields `PARSING_ERROR`, and the sanitize stage is
untimed: the result is the same whatever the sanitize call's duration,
even one exceeding both deadlines. -/
theorem c6_parsing_error_untimed (charged_words : List String) (url : String)
    (env : PipelineEnv) (html : String)
    (hf : env.fetchOutcome = .success html)
    (ht : env.fetchTime ≤ RESPONSE_TIMEOUT)
    (hs : env.sanitize html = .articleNotFound) :
    ∀ t : ℚ, process_article charged_words url { env with sanitizeTime := t } =
      { url := url, status := .PARSING_ERROR, words_count := none, score := none } := by
  obtain ⟨fo, ft, sa, st, sw, mt⟩ := env
  intro t
  simp only at hf hs ht
  unfold process_article
  simp only [hf, hs]
  rw [if_neg (not_lt.mpr ht)]

/-- C6 witness: the theorem applied with a sanitize duration of 100 seconds,
far beyond both deadlines, still classifying the page as `PARSING_ERROR`. -/
theorem c6_parsing_error_untimed_witness :
    process_article [] "u"
      { fetchOutcome := .success "page", fetchTime := 0,
        sanitize := fun _ => .articleNotFound, sanitizeTime := 100,
        splitByWords := fun _ => [], morphTime := 0 } =
      { url := "u", status := .PARSING_ERROR, words_count := none, score := none } :=
  c6_parsing_error_untimed [] "u"
    { fetchOutcome := .success "page", fetchTime := 0,
      sanitize := fun _ => .articleNotFound, sanitizeTime := 0,
      splitByWords := fun _ => [], morphTime := 0 } "page" rfl (by decide) rfl 100

end Jaundice
namespace Jaundice

/-- Auxiliary: positional lookup through a map, for indices in range. -/
theorem getD_map_of_lt {α β : Type} (f : α → β) (l : List α) (d : α) (e : β)
    (p : ℕ) (hp : p < l.length) : (l.map f).getD p e = f (l.getD p d) := by
  rw [List.getD_eq_getElem _ _ (by simpa using hp), List.getElem_map,
    List.getD_eq_getElem _ _ hp]

/-- C3: the orchestrator only ever observes completed, classified results:
with a full completion order it collects exactly one result per pipeline,
the result at each position is exactly the classified result of the
pipeline that completed there, and changing the behaviour (including any
failure) of pipeline `i` leaves every sibling pipeline's result
unchanged. -/
theorem c3_failure_isolation (charged_words : List String) (urls : List String)
    (envs₁ envs₂ : List PipelineEnv) (order : List ℕ) (i : ℕ)
    (horder : order.Perm (List.range urls.length))
    (hagree : ∀ j, j ≠ i → envs₁.getD j default = envs₂.getD j default) :
    (run_batch charged_words urls envs₁ order).length = urls.length ∧
    (∀ p, p < order.length →
      (run_batch charged_words urls envs₁ order).getD p default =
        process_article charged_words (urls.getD (order.getD p 0) "")
          (envs₁.getD (order.getD p 0) default)) ∧
    (∀ p, p < order.length → order.getD p 0 ≠ i →
      (run_batch charged_words urls envs₁ order).getD p default =
        (run_batch charged_words urls envs₂ order).getD p default) := by
  refine ⟨?_, ?_, ?_⟩
  · rw [run_batch_eq_map, List.length_map, horder.length_eq, List.length_range]
  · intro p hp
    rw [run_batch_eq_map, getD_map_of_lt _ order 0 _ p hp]
  · intro p hp hne
    rw [run_batch_eq_map, run_batch_eq_map, getD_map_of_lt _ order 0 _ p hp,
      getD_map_of_lt _ order 0 _ p hp, hagree (order.getD p 0) hne]

/-- C3 witness: in a concrete two-url batch, making the second pipeline time
out instead of failing fast does not change the sibling's collected
result. -/
theorem c3_failure_isolation_witness :
    (run_batch [] ["a", "b"] [default, default] [1, 0]).length = 2 ∧
    (run_batch [] ["a", "b"] [default, default] [1, 0]).getD 1 default =
      (run_batch [] ["a", "b"] [default, { (default : PipelineEnv) with fetchTime := 2 }]
        [1, 0]).getD 1 default := by
  have h := c3_failure_isolation [] ["a", "b"] [default, default]
    [default, { (default : PipelineEnv) with fetchTime := 2 }] [1, 0] 1 (by decide)
    (fun j hj => by
      match j with
      | 0 => rfl
      | 1 => exact absurd rfl hj
      | n + 2 => rfl)
  exact ⟨h.1, h.2.2 1 (by decide) (by decide)⟩

end Jaundice
namespace Jaundice

/-- C7: the score is the number of charged tokens divided by the total token
count, is 0 on an empty token list (no division error), and always lies in
[0, 1]. Determinism and absence of side effects hold because the embedding
is a pure function of its two arguments. -/
theorem c7_score_ratio (words charged_words : List String) :
    0 ≤ calculate_jaundice_rate words charged_words ∧
    calculate_jaundice_rate words charged_words ≤ 1 ∧
    (words.length = 0 → calculate_jaundice_rate words charged_words = 0) ∧
    (words.length ≠ 0 →
      calculate_jaundice_rate words charged_words * (words.length : ℚ) =
        (words.countP (fun w => charged_words.contains w) : ℚ)) := by
  unfold calculate_jaundice_rate
  split_ifs with h
  · exact ⟨le_refl 0, by norm_num, fun _ => rfl, fun hne => absurd h hne⟩
  · have hlen : (0 : ℚ) < (words.length : ℚ) := by
      exact_mod_cast Nat.pos_of_ne_zero h
    refine ⟨div_nonneg (by positivity) hlen.le, ?_, fun h0 => absurd h0 h,
      fun _ => ?_⟩
    · rw [div_le_one hlen]
      exact_mod_cast List.countP_le_length _
    · exact div_mul_cancel₀ _ hlen.ne'

/-- C7 witness: the spec's scenario — charged words war and crisis against
the four tokens war, today, crisis, calm — where the score times the token
count 4 equals the charged count 2, i.e. the score is 0.5. -/
theorem c7_score_ratio_witness :
    calculate_jaundice_rate ["war", "today", "crisis", "calm"] ["war", "crisis"] *
      ((["war", "today", "crisis", "calm"] : List String).length : ℚ) =
      ((["war", "today", "crisis", "calm"] : List String).countP
        (fun w => (["war", "crisis"] : List String).contains w) : ℚ) :=
  (c7_score_ratio ["war", "today", "crisis", "calm"] ["war", "crisis"]).2.2.2
    (by decide)

/-- Auxiliary: a left fold of list appends concatenates onto the initial
accumulator. -/
theorem foldl_append_eq_flatten {α : Type} :
    ∀ (l : List (List α)) (init : List α),
      l.foldl (fun acc ls => acc ++ ls) init = init ++ l.flatten := by
  intro l
  induction l with
  | nil => intro init; simp
  | cons a t ih => intro init; simp [ih]

/-- C9 counterexample: a word appearing in two charged-word files appears
twice in the loaded vocabulary — `load_charged_words` builds a list with
duplicates, not a set in which each element occurs once. -/
theorem c9_counterexample :
    load_charged_words [["war"], ["war"]] = ["war", "war"] ∧
    (load_charged_words [["war"], ["war"]]).count "war" = 2 := by
  decide

/-- C9 amended: `load_charged_words` merges the files into the concatenation
of their lines, whose membership is exactly the union of the files' lines;
an element may occur more than once when the input files repeat it. -/
theorem c9_vocabulary_merge (filelines : List (List String)) :
    load_charged_words filelines = filelines.flatten ∧
    ∀ w : String, w ∈ load_charged_words filelines ↔ ∃ ls ∈ filelines, w ∈ ls := by
  have hflat : load_charged_words filelines = filelines.flatten := by
    unfold load_charged_words
    rw [foldl_append_eq_flatten]
    simp
  refine ⟨hflat, fun w => ?_⟩
  rw [hflat]
  exact List.mem_flatten

end Jaundice
namespace Jaundice

/-- C8: a request whose comma-separated urls parameter holds more than
`MAX_URLS` urls is rejected with the bad-request message before any
pipeline is spawned, while a request with at most `MAX_URLS` urls is
answered with a JSON array holding one result per url — whatever the
individual pipeline outcomes are. -/
theorem c8_url_limit (charged_words : List String) (envs : String → PipelineEnv)
    (param : String) (order : List ℕ)
    (horder : order.Perm (List.range (pySplit param ',').length)) :
    ((pySplit param ',').length > MAX_URLS →
      handle charged_words envs (some param) order =
        ⟨.badRequest "too many urls in request, should be 5 or less", 0⟩) ∧
    ((pySplit param ',').length ≤ MAX_URLS →
      ∃ results, handle charged_words envs (some param) order =
          ⟨.jsonOk results, (pySplit param ',').length⟩ ∧
        results.length = (pySplit param ',').length) := by
  constructor
  · intro hgt
    simp only [handle]
    rw [if_pos hgt]
    decide
  · intro hle
    refine ⟨run_batch charged_words (pySplit param ',')
      ((pySplit param ',').map envs) order, ?_, ?_⟩
    · simp only [handle]
      rw [if_neg (not_lt.mpr hle)]
    · rw [run_batch_eq_map, List.length_map, horder.length_eq, List.length_range]

/-- C8 witness: a request with six urls and the default limit of five is
rejected with the human-readable message and zero pipelines spawned. -/
theorem c8_url_limit_witness :
    handle [] (fun _ => default) (some "a,b,c,d,e,f") (List.range 6) =
      ⟨.badRequest "too many urls in request, should be 5 or less", 0⟩ :=
  (c8_url_limit [] (fun _ => default) "a,b,c,d,e,f" (List.range 6)
    (by decide)).1 (by decide)

/-- C10: a request with no urls parameter at all makes the handler raise an
uncaught `KeyError` (no pipelines spawned, no client-error rejection), and
a request whose urls parameter is the empty string spawns exactly one
pipeline, for the empty-string url, whose single classified result is
returned. -/
theorem c10_param_edge_cases (charged_words : List String)
    (envs : String → PipelineEnv) (order₁ order₂ : List ℕ)
    (horder : order₂.Perm (List.range 1)) :
    handle charged_words envs none order₁ = ⟨.keyError, 0⟩ ∧
    handle charged_words envs (some "") order₂ =
      ⟨.jsonOk [process_article charged_words "" (envs "")], 1⟩ := by
  constructor
  · rfl
  · have h2 : order₂ = [0] := by
      have hr : List.range 1 = [0] := rfl
      rw [hr] at horder
      exact List.perm_singleton.mp horder
    subst h2
    rfl

/-- C10 witness: the theorem at a concrete environment — the missing
parameter yields the `KeyError` outcome, and the empty parameter yields one
result for the empty url. -/
theorem c10_param_edge_cases_witness :
    handle [] (fun _ => default) none [] = ⟨.keyError, 0⟩ ∧
    handle [] (fun _ => default) (some "") [0] =
      ⟨.jsonOk [process_article [] "" default], 1⟩ :=
  c10_param_edge_cases [] (fun _ => default) [] [0] (by decide)

end Jaundice
